import Mathlib

/-!
Verification of the k8s provisioning program (package main) against its
specification.  The Go source is shallowly embedded: each provisioning step
becomes a Lean function from the outcomes of its external command invocations
to the list of invocations it issues, the state it leaves behind and its
result.  The semantics of the external command-execution library
(lesiw.io/command) is modelled from the spec where noted.
-/

namespace K8s

/-- Errors are their human-readable messages (Go error strings). -/
abbrev Err := String

/-- Modelled from the spec: the process-wide trace sink (command.Trace).
The program only ever assigns two values to it: the visible sink
command.ShTrace (enabled by the -v flag) and io.Discard (the default,
also used to redact a secret-bearing invocation). -/
inductive Sink where
  | discard
  | shTrace
deriving DecidableEq, Repr

/-- A recorded command invocation against a machine: the full argument
vector, the stdin payload piped into it (if any), and the trace sink in
effect when it was issued. -/
structure Call where
  args : List String
  stdin : Option String
  sink : Sink
deriving DecidableEq, Repr

/-- const host = "k8s.lesiw.dev" -/
def host : String := "k8s.lesiw.dev"

/-- Content of the embedded autopatch.sh script (go:embed autopatch). -/
def autopatch : String :=
  "#!/bin/sh\n\nset -e\n\nDEBIAN_FRONTEND=noninteractive\n" ++
  "PATH=/usr/local/sbin:/usr/local/bin:/usr/sbin:/usr/bin:/sbin:/bin\n\n" ++
  "apt-get update\n\napt-get \\\n  -o Dpkg::Options::=--force-confold \\\n" ++
  "  -o Dpkg::Options::=--force-confdef \\\n  -y dist-upgrade\n\n" ++
  "apt-get autoremove -y\n\nshutdown -r 0\n"

/-- const autopatchCron (the fixed cron line). -/
def autopatchCron : String :=
  "0 2 * * 6 root /usr/local/bin/autopatch >> /var/log/autopatch.log 2>&1\n"

/-- const secretCfg (the Opaque secret manifest format string). -/
def secretCfg : String :=
  "apiVersion: v1\nkind: Secret\nmetadata:\n  name: %s\ntype: Opaque\n" ++
  "stringData:\n  %s: %s"

/-- const basicAuthCfg (the basic-auth secret manifest format string). -/
def basicAuthCfg : String :=
  "apiVersion: v1\nkind: Secret\nmetadata:\n  name: %s\n" ++
  "type: kubernetes.io/basic-auth\nstringData:\n  username: %s\n  password: %s"

/-- Character-level model of Go fmt.Sprintf restricted to the verb %s (the
only verb the program uses): each %s consumes the next argument verbatim. -/
def subst : List Char → List String → List Char
  | [], _ => []
  | '%' :: 's' :: cs, a :: as => a.data ++ subst cs as
  | '%' :: 's' :: cs, [] => '%' :: 's' :: subst cs []
  | c :: cs, as => c :: subst cs as

/-- fmt.Sprintf on strings, %s verbs only. -/
def sprintfS (fmt : String) (args : List String) : String :=
  ⟨subst fmt.data args⟩

/-- The cloudflare secret manifest built by setupCertManager:
fmt.Sprintf(secretCfg, "cert-manager-cloudflare-token", "api-token", r). -/
def certSecretManifest (v : String) : String :=
  sprintfS secretCfg ["cert-manager-cloudflare-token", "api-token", v]

/-- The registry basic-auth manifest built by setupContainerRegistry:
fmt.Sprintf(basicAuthCfg, "registry-auth-secret", "ll", r). -/
def basicAuthManifest (v : String) : String :=
  sprintfS basicAuthCfg ["registry-auth-secret", "ll", v]

/-- s contains t as a contiguous substring. -/
def StrContains (s t : String) : Prop :=
  ∃ a b : String, s = a ++ t ++ b

/-- C10: both secret manifests are plain %s-substitution of the retrieved
value: for every value v the cloudflare manifest is exactly the fixed header
followed by v, and the registry manifest is exactly its fixed header followed
by v — v is injected verbatim with no escaping or quoting, even when it
contains YAML metacharacters or newlines. -/
theorem manifests_embed_value_verbatim (v : String) :
    certSecretManifest v =
      ("apiVersion: v1\nkind: Secret\nmetadata:\n" ++
       "  name: cert-manager-cloudflare-token\ntype: Opaque\n" ++
       "stringData:\n  api-token: ") ++ v ∧
    basicAuthManifest v =
      ("apiVersion: v1\nkind: Secret\nmetadata:\n" ++
       "  name: registry-auth-secret\ntype: kubernetes.io/basic-auth\n" ++
       "stringData:\n  username: ll\n  password: ") ++ v := by
  constructor
  · show String.mk _ = String.mk _
    simp [certSecretManifest, sprintfS, secretCfg, subst]
  · show String.mk _ = String.mk _
    simp [basicAuthManifest, sprintfS, basicAuthCfg, subst]

/-- Modelled from the spec: the remote file state written through the shell
wrapper's writeFile helper — a map from path to (content, permission bits).
A mode of none means the helper's default mode (no fs.WithFileMode given). -/
def FS : Type := String → Option (String × Option Nat)

/-- Modelled from the spec: writeFile(path, bytes, mode option). -/
def fsWrite (fs : FS) (path content : String) (mode : Option Nat) : FS :=
  fun q => if q = path then some (content, mode) else fs q

/-- Modelled from the spec: readFile + stat, returning content and mode. -/
def fsGet (fs : FS) (path : String) : Option (String × Option Nat) :=
  fs path

/-- func installAutopatch: writes the embedded script to
/usr/local/bin/autopatch with mode 0755, the cron line to
/etc/cron.d/autopatch, and an empty /var/log/autopatch.log.  The w1 w2 w3
parameters are the outcomes of the three underlying WriteFile invocations. -/
def installAutopatch (fs : FS) (w1 w2 w3 : Except Err Unit) : Except Err FS :=
  match w1 with
  | .error e => .error ("could not install autopatch: " ++ e)
  | .ok () =>
    let fs1 := fsWrite fs "/usr/local/bin/autopatch" autopatch (some 0o755)
    match w2 with
    | .error e => .error ("could not install autopatch cron job: " ++ e)
    | .ok () =>
      let fs2 := fsWrite fs1 "/etc/cron.d/autopatch" autopatchCron none
      match w3 with
      | .error e => .error ("could not create autopatch log: " ++ e)
      | .ok () => .ok (fsWrite fs2 "/var/log/autopatch.log" "" none)

/-- C2: whenever installAutopatch returns nil (all file writes succeeded),
the remote file /usr/local/bin/autopatch has content exactly the embedded
autopatch script and permission bits 0755, and /etc/cron.d/autopatch has
content exactly the fixed cron line autopatchCron. -/
theorem installAutopatch_installs_script_and_cron
    (fs fs' : FS) (w1 w2 w3 : Except Err Unit)
    (h : installAutopatch fs w1 w2 w3 = .ok fs') :
    fsGet fs' "/usr/local/bin/autopatch" = some (autopatch, some 0o755) ∧
    (fsGet fs' "/etc/cron.d/autopatch").map Prod.fst = some autopatchCron := by
  rcases w1 with e | u
  · simp [installAutopatch] at h
  · rcases w2 with e | u2
    · simp [installAutopatch] at h
    · rcases w3 with e | u3
      · simp [installAutopatch] at h
      · simp only [installAutopatch, Except.ok.injEq] at h
        subst h
        refine ⟨?_, ?_⟩
        · show fsWrite _ _ _ _ _ = _
          simp [fsWrite]
        · show ((fsWrite _ _ _ _ _).map Prod.fst) = _
          simp [fsWrite]

/-- C2 witness: concrete run of installAutopatch from an empty file system
with all three writes succeeding. -/
theorem installAutopatch_installs_script_and_cron_witness :
    fsGet
        (fsWrite
          (fsWrite
            (fsWrite (fun _ => none) "/usr/local/bin/autopatch" autopatch
              (some 0o755))
            "/etc/cron.d/autopatch" autopatchCron none)
          "/var/log/autopatch.log" "" none)
        "/usr/local/bin/autopatch" = some (autopatch, some 0o755) ∧
    (fsGet
        (fsWrite
          (fsWrite
            (fsWrite (fun _ => none) "/usr/local/bin/autopatch" autopatch
              (some 0o755))
            "/etc/cron.d/autopatch" autopatchCron none)
          "/var/log/autopatch.log" "" none)
        "/etc/cron.d/autopatch").map Prod.fst = some autopatchCron :=
  installAutopatch_installs_script_and_cron (fun _ => none) _
    (.ok ()) (.ok ()) (.ok ()) rfl

/-- func updateK3s: pipes curl -sfL https://get.k3s.io into sh -s - on the
remote machine.  curl is the producer invocation (its outcome carries its
output), sh the consumer; pipe semantics modelled from the spec (§4.4):
the producer's output is the consumer's stdin and either side's failure
fails the step. -/
def updateK3s (curl : Except Err String) (sh : Except Err Unit)
    (t : Sink) : List Call × Except Err Unit :=
  match curl with
  | .error e =>
    ([⟨["curl", "-sfL", "https://get.k3s.io"], none, t⟩],
     .error ("could not update k3s: " ++ e))
  | .ok out =>
    let calls := [⟨["curl", "-sfL", "https://get.k3s.io"], none, t⟩,
                  ⟨["sh", "-s", "-"], some out, t⟩]
    match sh with
    | .error e => (calls, .error ("could not update k3s: " ++ e))
    | .ok () => (calls, .ok ())

/-- C3: when both commands succeed, updateK3s issues exactly one curl
invocation with argv [curl, -sfL, https://get.k3s.io] and exactly one sh
invocation with argv [sh, -s, -], and the curl invocation's output is the
sh invocation's stdin. -/
theorem updateK3s_pipes_curl_into_sh (out : String) (t : Sink) :
    (updateK3s (.ok out) (.ok ()) t).1.filter
        (fun c => c.args.head? = some "curl") =
      [⟨["curl", "-sfL", "https://get.k3s.io"], none, t⟩] ∧
    (updateK3s (.ok out) (.ok ()) t).1.filter
        (fun c => c.args.head? = some "sh") =
      [⟨["sh", "-s", "-"], some out, t⟩] ∧
    (updateK3s (.ok out) (.ok ()) t).2 = .ok () := by
  refine ⟨?_, ?_, rfl⟩ <;> simp [updateK3s, List.filter]

/-- Modelled from the spec: command.Call returns the invocation's captured
standard output trimmed of its trailing newline (§4.2). -/
def trimNL (s : String) : String :=
  if s.data.getLast? = some '\n' then ⟨s.data.dropLast⟩ else s

/-- The cert-manager install URL applied by setupCertManager. -/
def certManagerURL : String :=
  "https://github.com/cert-manager/cert-manager/" ++
  "releases/download/v1.17.1/cert-manager.yaml"

/-- Output of a provisioning step that talks to both the control-plane
machine (ctl) and the secrets sub-machine (spkez). -/
structure StepOut where
  ctlCalls : List Call
  spkezCalls : List Call
  result : Except Err Unit
deriving Repr

/-- func setupCertManager: applies the cert-manager install URL, retrieves
the cloudflare API token via the spkez sub-machine, applies the cloudflare
secret manifest built from it, then applies the embedded issuer manifest.
Parameters are the outcomes of the four external invocations, the embedded
issuer.yml content (not in the repository snapshot) and the ambient trace
sink. -/
def setupCertManager (install : Except Err Unit) (getCf : Except Err String)
    (applySecret applyIssuer : Except Err Unit) (issuer : String)
    (t : Sink) : StepOut :=
  let c1 : Call := ⟨["apply", "-f", certManagerURL], none, t⟩
  match install with
  | .error e =>
    ⟨[c1], [], .error ("could not install cert-manager: " ++ e)⟩
  | .ok () =>
    let g : Call := ⟨["get", "k8s/cert-manager/cloudflare"], none, t⟩
    match getCf with
    | .error e =>
      ⟨[c1], [g], .error ("could not get cloudflare API key: " ++ e)⟩
    | .ok raw =>
      let r := trimNL raw
      let c2 : Call := ⟨["apply", "-f", "-"], some (certSecretManifest r), t⟩
      match applySecret with
      | .error e =>
        ⟨[c1, c2], [g], .error ("could not store cloudflare secret: " ++ e)⟩
      | .ok () =>
        let c3 : Call := ⟨["apply", "-f", "-"], some issuer, t⟩
        match applyIssuer with
        | .error e =>
          ⟨[c1, c2, c3], [g],
           .error ("could not create cloudflare issuer: " ++ e)⟩
        | .ok () => ⟨[c1, c2, c3], [g], .ok ()⟩

/-- C4: with the secrets sub-machine returning "fake-cloudflare-token\n"
for get k8s/cert-manager/cloudflare and every apply succeeding,
setupCertManager issues exactly 3 apply invocations in order — install URL,
cloudflare secret, issuer manifest — and the second apply's stdin contains
both literals cert-manager-cloudflare-token and fake-cloudflare-token, the
retrieved value's trailing newline stripped. -/
theorem setupCertManager_applies_in_order (issuer : String) (t : Sink) :
    (setupCertManager (.ok ()) (.ok "fake-cloudflare-token\n")
        (.ok ()) (.ok ()) issuer t).ctlCalls =
      [⟨["apply", "-f", certManagerURL], none, t⟩,
       ⟨["apply", "-f", "-"],
        some (certSecretManifest "fake-cloudflare-token"), t⟩,
       ⟨["apply", "-f", "-"], some issuer, t⟩] ∧
    StrContains (certSecretManifest "fake-cloudflare-token")
      "cert-manager-cloudflare-token" ∧
    StrContains (certSecretManifest "fake-cloudflare-token")
      "fake-cloudflare-token" := by
  refine ⟨?_, ?_, ?_⟩
  · show ([_, ⟨_, some (certSecretManifest (trimNL _)), _⟩, _] : List Call) = _
    have : trimNL "fake-cloudflare-token\n" = "fake-cloudflare-token" := by
      decide
    rw [this]
  · exact ⟨"apiVersion: v1\nkind: Secret\nmetadata:\n  name: ",
      "\ntype: Opaque\nstringData:\n  api-token: fake-cloudflare-token",
      by decide⟩
  · exact ⟨"apiVersion: v1\nkind: Secret\nmetadata:\n" ++
      "  name: cert-manager-cloudflare-token\ntype: Opaque\n" ++
      "stringData:\n  api-token: ", "", by decide⟩

/-- Output of setupContainerRegistry: the invocations issued, the result,
the value of command.Trace when the function returns, and the list of
values assigned to command.Trace during the call (in order). -/
structure CROut where
  ctlCalls : List Call
  spkezCalls : List Call
  result : Except Err Unit
  finalTrace : Sink
  traceLog : List Sink
deriving Repr

/-- The argv of the guarded create-secret invocation issued for regcred. -/
def createRegcredArgs (user pass : String) : List String :=
  ["create", "secret", "docker-registry", "regcred",
   "--docker-server=ctr.lesiw.dev",
   "--docker-username=" ++ user,
   "--docker-password=" ++ pass]

/-- func setupContainerRegistry: retrieves the registry password via spkez,
applies the basic-auth secret manifest, applies the embedded registry
manifest, checks for an existing regcred secret, and only when that check
fails creates it — with command.Trace set to io.Discard around the create
invocation and restored afterwards (both by the deferred restore and, on
success, by an explicit assignment).  Parameters are the outcomes of the
five external invocations, the embedded registry.yml content (not in the
repository snapshot) and the initial trace sink. -/
def setupContainerRegistry (getAuth : Except Err String)
    (applyAuth applyRegistry : Except Err Unit)
    (getSecret : Except Err Unit) (create : Except Err Unit)
    (registry : String) (t : Sink) : CROut :=
  let g : Call := ⟨["get", "ctr.lesiw.dev/auth"], none, t⟩
  match getAuth with
  | .error e =>
    ⟨[], [g], .error ("could not get registry auth secret: " ++ e), t, []⟩
  | .ok raw =>
    let regpass := trimNL raw
    let c1 : Call := ⟨["apply", "-f", "-"],
                      some (basicAuthManifest regpass), t⟩
    match applyAuth with
    | .error e =>
      ⟨[c1], [g], .error ("could not store registry auth secret: " ++ e),
       t, []⟩
    | .ok () =>
      let c2 : Call := ⟨["apply", "-f", "-"], some registry, t⟩
      match applyRegistry with
      | .error e =>
        ⟨[c1, c2], [g], .error ("could not install registry: " ++ e), t, []⟩
      | .ok () =>
        let c3 : Call := ⟨["get", "secret", "regcred"], none, t⟩
        match getSecret with
        | .ok () => ⟨[c1, c2, c3], [g], .ok (), t, []⟩
        | .error _ =>
          let c4 : Call := ⟨createRegcredArgs "ll" regpass, none, .discard⟩
          match create with
          | .error e =>
            ⟨[c1, c2, c3, c4], [g],
             .error ("could not store registry secret: " ++ e),
             t, [.discard, t]⟩
          | .ok () =>
            ⟨[c1, c2, c3, c4], [g], .ok (), t, [.discard, t, t]⟩

/-- C5: with the secrets sub-machine returning "fake-registry-password\n"
for get ctr.lesiw.dev/auth and the manifest applies succeeding,
setupContainerRegistry applies a basic-auth manifest containing both
literals registry-auth-secret and fake-registry-password, issues the
existence check get secret regcred exactly once, and on check failure
issues the create-secret invocation embedding username ll and the
retrieved password with its tracing suppressed (sink io.Discard) while
every other invocation keeps the ambient sink. -/
theorem setupContainerRegistry_guarded_create
    (registry : String) (t : Sink) (e : Err) (create : Except Err Unit) :
    (setupContainerRegistry (.ok "fake-registry-password\n")
        (.ok ()) (.ok ()) (.error e) create registry t).ctlCalls =
      [⟨["apply", "-f", "-"],
        some (basicAuthManifest "fake-registry-password"), t⟩,
       ⟨["apply", "-f", "-"], some registry, t⟩,
       ⟨["get", "secret", "regcred"], none, t⟩,
       ⟨createRegcredArgs "ll" "fake-registry-password", none, .discard⟩] ∧
    StrContains (basicAuthManifest "fake-registry-password")
      "registry-auth-secret" ∧
    StrContains (basicAuthManifest "fake-registry-password")
      "fake-registry-password" := by
  have ht : trimNL "fake-registry-password\n" = "fake-registry-password" := by
    decide
  refine ⟨?_, ?_, ?_⟩
  · rcases create with ce | cu <;>
      simp only [setupContainerRegistry, ht]
  · exact ⟨"apiVersion: v1\nkind: Secret\nmetadata:\n  name: ",
      "\ntype: kubernetes.io/basic-auth\nstringData:\n  username: ll\n" ++
      "  password: fake-registry-password",
      by decide⟩
  · exact ⟨"apiVersion: v1\nkind: Secret\nmetadata:\n" ++
      "  name: registry-auth-secret\ntype: kubernetes.io/basic-auth\n" ++
      "stringData:\n  username: ll\n  password: ", "", by decide⟩

/-- C6: the process-wide trace sink is restored to its prior value on every
exit path of setupContainerRegistry — whatever the outcomes of the five
external invocations, the final value of command.Trace equals its initial
value. -/
theorem setupContainerRegistry_restores_trace
    (getAuth : Except Err String) (applyAuth applyRegistry : Except Err Unit)
    (getSecret : Except Err Unit) (create : Except Err Unit)
    (registry : String) (t : Sink) :
    (setupContainerRegistry getAuth applyAuth applyRegistry getSecret create
        registry t).finalTrace = t := by
  rcases getAuth with e | raw <;>
    rcases applyAuth with e1 | u1 <;>
      rcases applyRegistry with e2 | u2 <;>
        rcases getSecret with e3 | u3 <;>
          rcases create with e4 | u4 <;>
            rfl

/-- C9: when the existence check get secret regcred succeeds (earlier steps
having succeeded), setupContainerRegistry issues no create invocation,
never assigns command.Trace, and returns nil; and the check's own failure
is never reported as the function's error — with the check failing and the
create succeeding the function still returns nil. -/
theorem setupContainerRegistry_check_success_noop
    (raw registry : String) (t : Sink) (e : Err)
    (create : Except Err Unit) :
    ((setupContainerRegistry (.ok raw) (.ok ()) (.ok ()) (.ok ()) create
        registry t).result = .ok () ∧
     (setupContainerRegistry (.ok raw) (.ok ()) (.ok ()) (.ok ()) create
        registry t).traceLog = [] ∧
     (setupContainerRegistry (.ok raw) (.ok ()) (.ok ()) (.ok ()) create
        registry t).ctlCalls.filter
          (fun c => c.args.head? = some "create") = []) ∧
    (setupContainerRegistry (.ok raw) (.ok ()) (.ok ()) (.error e) (.ok ())
        registry t).result = .ok () := by
  refine ⟨⟨rfl, rfl, ?_⟩, rfl⟩
  simp [setupContainerRegistry, List.filter]

/-- The six provisioning steps, in the order func run invokes them. -/
inductive Step where
  | autopatch
  | k3s
  | traefik
  | postgres
  | certManager
  | registry
deriving DecidableEq, Repr

/-- The order of steps in func run. -/
def stepOrder : List Step :=
  [.autopatch, .k3s, .traefik, .postgres, .certManager, .registry]

/-- The error wrapping func run applies to each step's failure
(installAutopatch's error is returned unwrapped). -/
def wrapStep : Step → Err → Err
  | .autopatch, e => e
  | .k3s, e => "failed to install or update k3s: " ++ e
  | .traefik, e => "failed to set up traefik: " ++ e
  | .postgres, e => "failed to set up postgres: " ++ e
  | .certManager, e => "failed to set up cert-manager: " ++ e
  | .registry, e => "failed to setup container registry: " ++ e

/-- func run as a fold over the remaining steps: invoke each step in order,
stopping at (and wrapping) the first failure.  Returns the list of steps
actually invoked and the result. -/
def runSteps (r : Step → Except Err Unit) :
    List Step → List Step × Except Err Unit
  | [] => ([], .ok ())
  | st :: rest =>
    match r st with
    | .error e => ([st], .error (wrapStep st e))
    | .ok () =>
      let out := runSteps r rest
      (st :: out.1, out.2)

/-- func run. -/
def run (r : Step → Except Err Unit) : List Step × Except Err Unit :=
  runSteps r stepOrder

/-- func main around run: on error, print the wrapped error to stderr and
exit 1 (defers.Exit); on success exit 0.  Returns (exit code, stderr). -/
def mainExit (r : Step → Except Err Unit) : Nat × List String :=
  match (run r).2 with
  | .ok () => (0, [])
  | .error e => (1, [e])

/-- C8: the run is a single pass/fail unit.  If every step succeeds, all
six steps are invoked in order and the process exits 0 with empty stderr.
If a step fails (its predecessors having succeeded), exactly the steps up
to and including it are invoked, the wrapped error is the run's result,
and the process exits 1 with that error printed to stderr. -/
theorem run_failfast (r : Step → Except Err Unit) :
    ((∀ st, r st = .ok ()) →
      run r = (stepOrder, .ok ()) ∧ mainExit r = (0, [])) ∧
    (∀ (i : Nat) (e : Err) (hi : i < stepOrder.length),
      (∀ j, j < i → ∀ (hj : j < stepOrder.length),
        r (stepOrder.get ⟨j, hj⟩) = .ok ()) →
      r (stepOrder.get ⟨i, hi⟩) = .error e →
      run r = (stepOrder.take (i + 1),
               .error (wrapStep (stepOrder.get ⟨i, hi⟩) e)) ∧
      mainExit r = (1, [wrapStep (stepOrder.get ⟨i, hi⟩) e])) := by
  constructor
  · intro h
    have h0 := h .autopatch
    have h1 := h .k3s
    have h2 := h .traefik
    have h3 := h .postgres
    have h4 := h .certManager
    have h5 := h .registry
    constructor <;>
      simp [run, mainExit, runSteps, stepOrder, h0, h1, h2, h3, h4, h5]
  · intro i e hi hok herr
    simp only [stepOrder, List.length_cons, List.length_nil] at hi
    interval_cases i
    · simp only [stepOrder, List.get] at herr
      constructor <;>
        (simp [run, mainExit, runSteps, stepOrder, wrapStep,
          List.getElem_cons_zero, List.getElem_cons_succ, herr]
         try rfl)
    · have h0 := hok 0 (by omega) (by simp [stepOrder])
      simp only [stepOrder, List.get] at herr h0
      constructor <;>
        (simp [run, mainExit, runSteps, stepOrder, wrapStep,
          List.getElem_cons_zero, List.getElem_cons_succ, herr, h0]
         try rfl)
    · have h0 := hok 0 (by omega) (by simp [stepOrder])
      have h1 := hok 1 (by omega) (by simp [stepOrder])
      simp only [stepOrder, List.get] at herr h0 h1
      constructor <;>
        (simp [run, mainExit, runSteps, stepOrder, wrapStep,
          List.getElem_cons_zero, List.getElem_cons_succ, herr, h0, h1]
         try rfl)
    · have h0 := hok 0 (by omega) (by simp [stepOrder])
      have h1 := hok 1 (by omega) (by simp [stepOrder])
      have h2 := hok 2 (by omega) (by simp [stepOrder])
      simp only [stepOrder, List.get] at herr h0 h1 h2
      constructor <;>
        (simp [run, mainExit, runSteps, stepOrder, wrapStep,
          List.getElem_cons_zero, List.getElem_cons_succ, herr, h0, h1, h2]
         try rfl)
    · have h0 := hok 0 (by omega) (by simp [stepOrder])
      have h1 := hok 1 (by omega) (by simp [stepOrder])
      have h2 := hok 2 (by omega) (by simp [stepOrder])
      have h3 := hok 3 (by omega) (by simp [stepOrder])
      simp only [stepOrder, List.get] at herr h0 h1 h2 h3
      constructor <;>
        (simp [run, mainExit, runSteps, stepOrder, wrapStep,
          List.getElem_cons_zero, List.getElem_cons_succ, herr,
          h0, h1, h2, h3]
         try rfl)
    · have h0 := hok 0 (by omega) (by simp [stepOrder])
      have h1 := hok 1 (by omega) (by simp [stepOrder])
      have h2 := hok 2 (by omega) (by simp [stepOrder])
      have h3 := hok 3 (by omega) (by simp [stepOrder])
      have h4 := hok 4 (by omega) (by simp [stepOrder])
      simp only [stepOrder, List.get] at herr h0 h1 h2 h3 h4
      constructor <;>
        (simp [run, mainExit, runSteps, stepOrder, wrapStep,
          List.getElem_cons_zero, List.getElem_cons_succ, herr,
          h0, h1, h2, h3, h4]
         try rfl)

/-- C8 witness: concrete run where updateK3s fails — only the first two
steps are invoked, the wrapped error is returned, and the process exits 1
with it on stderr. -/
theorem run_failfast_witness :
    run (fun st => if st = Step.k3s then .error "boom" else .ok ()) =
      ([Step.autopatch, Step.k3s],
       .error ("failed to install or update k3s: " ++ "boom")) ∧
    mainExit (fun st => if st = Step.k3s then .error "boom" else .ok ()) =
      (1, ["failed to install or update k3s: " ++ "boom"]) :=
  (run_failfast (fun st => if st = Step.k3s then .error "boom" else .ok ())).2
    1 "boom" (by decide)
    (by intro j hj hj'; interval_cases j; rfl)
    rfl

/-- A machine value, as the program composes them: the local system machine,
a shell wrapper around a machine (command.Shell), and a delegated machine
with a fixed argument list put in front (sub.Machine). -/
inductive Machine where
  | sys
  | shell (m : Machine)
  | sub (m : Machine) (pre : List String)
deriving DecidableEq, Repr

/-- The side effects the memoized constructors perform during setup. -/
inductive Evt where
  | spkezCheck
  | spkezInstall
  | sshKeyGet
  | keyFileCreate
deriving DecidableEq, Repr

/-- Outcome classification of the initial spkez availability check:
success, not-found (command.NotFound) or some other failure. -/
inductive CheckRes where
  | ok
  | notFound
  | failed (e : Err)
deriving DecidableEq, Repr

/-- Outcomes of the external operations the memoized setups perform. -/
structure Env where
  spkezCheck : CheckRes
  installRes : Except Err Unit
  sshKeyRes : Except Err String
  tmpRes : Except Err String
  chmodRes : Except Err Unit
  writeRes : Except Err Unit

/-- The body of the getSpkez once-closure: check spkez availability; on
not-found install it (once, with no second lookup); on any other check
failure fail without installing; return the spkez sub-machine.  Produces
the result and the list of setup effects in order. -/
def spkezSetup (env : Env) : Except Err Machine × List Evt :=
  match env.spkezCheck with
  | .ok => (.ok (.sub (.shell .sys) ["spkez"]), [.spkezCheck])
  | .notFound =>
    match env.installRes with
    | .ok () => (.ok (.sub (.shell .sys) ["spkez"]),
                 [.spkezCheck, .spkezInstall])
    | .error e => (.error ("could not install spkez: " ++ e),
                   [.spkezCheck, .spkezInstall])
  | .failed e => (.error ("error checking spkez: " ++ e), [.spkezCheck])

/-- The body of the getK8s once-closure, given the spkez machine (or its
construction error): retrieve the ssh key, create the 0600 key file, write
the key, and build the ssh-delegated shell machine. -/
def k8sSetup (env : Env) (spkez : Except Err Machine) :
    Except Err Machine × List Evt :=
  match spkez with
  | .error e => (.error e, [])
  | .ok _ =>
    match env.sshKeyRes with
    | .error e => (.error ("could not get ssh key: " ++ e), [.sshKeyGet])
    | .ok _ =>
      match env.tmpRes with
      | .error e => (.error ("could not create temp file: " ++ e),
                     [.sshKeyGet])
      | .ok name =>
        match env.chmodRes with
        | .error e =>
          (.error ("could not set permissions on temp file: " ++ e),
           [.sshKeyGet, .keyFileCreate])
        | .ok () =>
          match env.writeRes with
          | .error e => (.error ("could not write to temp file: " ++ e),
                         [.sshKeyGet, .keyFileCreate])
          | .ok () =>
            (.ok (.shell (.sub (.shell .sys)
               ["ssh", "-i", name, host, "--"])),
             [.sshKeyGet, .keyFileCreate])

/-- The body of the getCtl once-closure: delegate kubectl over the k8s
machine (or propagate its construction error).  No setup effects. -/
def ctlSetup (k8s : Except Err Machine) : Except Err Machine :=
  match k8s with
  | .error e => .error e
  | .ok m => .ok (.sub m ["kubectl"])

/-- Modelled from the spec: the per-process state of the three
sync.OnceValues cells — each caches either the constructed machine or the
construction error after its first access — plus the accumulated log of
setup side effects. -/
structure PState where
  spkezC : Option (Except Err Machine)
  k8sC : Option (Except Err Machine)
  ctlC : Option (Except Err Machine)
  log : List Evt

/-- The fresh process state: nothing constructed yet. -/
def initState : PState := ⟨none, none, none, []⟩

/-- var getSpkez: replay the cached result, or run spkezSetup once and
cache its result (value or error). -/
def getSpkezA (env : Env) (s : PState) : Except Err Machine × PState :=
  match s.spkezC with
  | some r => (r, s)
  | none =>
    let out := spkezSetup env
    (out.1, { s with spkezC := some out.1, log := s.log ++ out.2 })

/-- var getK8s: replay the cached result, or run the setup (which first
accesses getSpkez) once and cache its result. -/
def getK8sA (env : Env) (s : PState) : Except Err Machine × PState :=
  match s.k8sC with
  | some r => (r, s)
  | none =>
    let sp := getSpkezA env s
    let out := k8sSetup env sp.1
    (out.1, { sp.2 with k8sC := some out.1, log := sp.2.log ++ out.2 })

/-- var getCtl: replay the cached result, or run the setup (which first
accesses getK8s) once and cache its result. -/
def getCtlA (env : Env) (s : PState) : Except Err Machine × PState :=
  match s.ctlC with
  | some r => (r, s)
  | none =>
    let k := getK8sA env s
    let r := ctlSetup k.1
    (r, { k.2 with ctlC := some r })

/-- Which memoized constructor an access goes to. -/
inductive Getter where
  | spkez
  | k8s
  | ctl
deriving DecidableEq, Repr

/-- One access to a memoized constructor. -/
def access (env : Env) : Getter → PState → Except Err Machine × PState
  | .spkez, s => getSpkezA env s
  | .k8s, s => getK8sA env s
  | .ctl, s => getCtlA env s

/-- A sequence of accesses (the serialization order the once-primitive
imposes on sequential or concurrent callers), returning each access's
observed result paired with its getter, and the final state. -/
def runSeq (env : Env) : List Getter → PState →
    List (Getter × Except Err Machine) × PState
  | [], s => ([], s)
  | g :: gs, s =>
    let a := access env g s
    let rest := runSeq env gs a.2
    ((g, a.1) :: rest.1, rest.2)

/-- The cache cell an access goes through. -/
def cacheOf : Getter → PState → Option (Except Err Machine)
  | .spkez, s => s.spkezC
  | .k8s, s => s.k8sC
  | .ctl, s => s.ctlC

theorem getSpkezA_k8sC (env : Env) (s : PState) :
    ((getSpkezA env s).2).k8sC = s.k8sC := by
  cases h : s.spkezC <;> simp [getSpkezA, h]

theorem getSpkezA_ctlC (env : Env) (s : PState) :
    ((getSpkezA env s).2).ctlC = s.ctlC := by
  cases h : s.spkezC <;> simp [getSpkezA, h]

theorem getSpkezA_cached (env : Env) (s : PState) (r : Except Err Machine)
    (h : s.spkezC = some r) : getSpkezA env s = (r, s) := by
  simp [getSpkezA, h]

theorem getSpkezA_fill (env : Env) (s : PState) :
    ((getSpkezA env s).2).spkezC = some ((getSpkezA env s).1) := by
  cases h : s.spkezC <;> simp [getSpkezA, h]

theorem getK8sA_cached (env : Env) (s : PState) (r : Except Err Machine)
    (h : s.k8sC = some r) : getK8sA env s = (r, s) := by
  simp [getK8sA, h]

theorem getK8sA_fill (env : Env) (s : PState) :
    ((getK8sA env s).2).k8sC = some ((getK8sA env s).1) := by
  cases h : s.k8sC <;> simp [getK8sA, h]

theorem getK8sA_spkezC_mono (env : Env) (s : PState)
    (r : Except Err Machine) (h : s.spkezC = some r) :
    ((getK8sA env s).2).spkezC = some r := by
  cases hk : s.k8sC with
  | some rk => simp [getK8sA, hk, h]
  | none => simp [getK8sA, hk, getSpkezA_cached env s r h, h]

theorem getK8sA_ctlC (env : Env) (s : PState) :
    ((getK8sA env s).2).ctlC = s.ctlC := by
  cases hk : s.k8sC with
  | some rk => simp [getK8sA, hk]
  | none => simp [getK8sA, hk, getSpkezA_ctlC]

theorem getCtlA_cached (env : Env) (s : PState) (r : Except Err Machine)
    (h : s.ctlC = some r) : getCtlA env s = (r, s) := by
  simp [getCtlA, h]

theorem getCtlA_fill (env : Env) (s : PState) :
    ((getCtlA env s).2).ctlC = some ((getCtlA env s).1) := by
  cases h : s.ctlC <;> simp [getCtlA, h]

theorem getCtlA_spkezC_mono (env : Env) (s : PState)
    (r : Except Err Machine) (h : s.spkezC = some r) :
    ((getCtlA env s).2).spkezC = some r := by
  cases hc : s.ctlC with
  | some rc => simp [getCtlA, hc, h]
  | none => simp [getCtlA, hc, getK8sA_spkezC_mono env s r h]

theorem getCtlA_k8sC_mono (env : Env) (s : PState)
    (r : Except Err Machine) (h : s.k8sC = some r) :
    ((getCtlA env s).2).k8sC = some r := by
  cases hc : s.ctlC with
  | some rc => simp [getCtlA, hc, h]
  | none => simp [getCtlA, hc, getK8sA_cached env s r h, h]

/-- An access never clears or changes a filled cache cell. -/
theorem access_mono (env : Env) (g g' : Getter) (s : PState)
    (r : Except Err Machine) (h : cacheOf g' s = some r) :
    cacheOf g' ((access env g s).2) = some r := by
  cases g <;> cases g' <;>
    simp only [access, cacheOf] at h ⊢
  · rw [getSpkezA_cached env s r h]; exact h
  · rw [getSpkezA_k8sC]; exact h
  · rw [getSpkezA_ctlC]; exact h
  · exact getK8sA_spkezC_mono env s r h
  · rw [getK8sA_cached env s r h]; exact h
  · rw [getK8sA_ctlC]; exact h
  · exact getCtlA_spkezC_mono env s r h
  · exact getCtlA_k8sC_mono env s r h
  · rw [getCtlA_cached env s r h]; exact h

/-- An access whose cache cell is filled replays the cached result and
leaves the state unchanged. -/
theorem access_cached (env : Env) (g : Getter) (s : PState)
    (r : Except Err Machine) (h : cacheOf g s = some r) :
    access env g s = (r, s) := by
  cases g
  · exact getSpkezA_cached env s r h
  · exact getK8sA_cached env s r h
  · exact getCtlA_cached env s r h

/-- After an access, the accessed cell caches exactly the returned result. -/
theorem access_fill (env : Env) (g : Getter) (s : PState) :
    cacheOf g ((access env g s).2) = some ((access env g s).1) := by
  cases g
  · exact getSpkezA_fill env s
  · exact getK8sA_fill env s
  · exact getCtlA_fill env s

/-- Every access to getter g in a run started from a state whose g-cell
already caches r observes exactly r. -/
theorem runSeq_stable (env : Env) (gs : List Getter) :
    ∀ (s : PState) (g : Getter) (r : Except Err Machine),
      cacheOf g s = some r →
      ∀ p ∈ (runSeq env gs s).1, p.1 = g → p.2 = r := by
  induction gs with
  | nil => intro s g r _ p hp; simp [runSeq] at hp
  | cons g' gs ih =>
    intro s g r h p hp hg
    simp only [runSeq, List.mem_cons] at hp
    rcases hp with hp | hp
    · subst hp
      have hg' : g' = g := hg
      rw [← hg'] at h
      show (access env g' s).1 = r
      rw [access_cached env g' s r h]
    · exact ih ((access env g' s).2) g r (access_mono env g' g s r h) p hp hg

/-- Any two accesses to the same getter in one run observe equal results. -/
theorem runSeq_pairwise (env : Env) (gs : List Getter) :
    ∀ s : PState, ((runSeq env gs s).1).Pairwise
      (fun a b => a.1 = b.1 → a.2 = b.2) := by
  induction gs with
  | nil => intro s; simp [runSeq]
  | cons g gs ih =>
    intro s
    simp only [runSeq, List.pairwise_cons]
    refine ⟨?_, ih ((access env g s).2)⟩
    intro p hp hg
    exact (runSeq_stable env gs ((access env g s).2) g ((access env g s).1)
      (access_fill env g s) p hp hg.symm).symm

theorem spkezSetup_counts (env : Env) :
    (spkezSetup env).2.count .spkezCheck ≤ 1 ∧
    (spkezSetup env).2.count .spkezInstall ≤ 1 ∧
    (spkezSetup env).2.count .sshKeyGet = 0 ∧
    (spkezSetup env).2.count .keyFileCreate = 0 := by
  rcases h : env.spkezCheck with _ | _ | e <;>
    [skip; rcases hi : env.installRes with e | u; skip] <;>
    simp [spkezSetup, h] <;> simp [hi]

theorem k8sSetup_counts (env : Env) (sp : Except Err Machine) :
    (k8sSetup env sp).2.count .spkezCheck = 0 ∧
    (k8sSetup env sp).2.count .spkezInstall = 0 ∧
    (k8sSetup env sp).2.count .sshKeyGet ≤ 1 ∧
    (k8sSetup env sp).2.count .keyFileCreate ≤ 1 := by
  rcases sp with e | m
  · simp [k8sSetup]
  · rcases h1 : env.sshKeyRes with e | k <;>
      rcases h2 : env.tmpRes with e2 | name <;>
        rcases h3 : env.chmodRes with e3 | u3 <;>
          rcases h4 : env.writeRes with e4 | u4 <;>
            simp [k8sSetup, h1, h2, h3, h4]

/-- Invariant tying setup-effect counts to cache occupancy: effects appear
in the log at most once, and not at all while the cell that emits them is
still empty. -/
def LogInv (s : PState) : Prop :=
  (s.spkezC = none →
    s.log.count .spkezCheck = 0 ∧ s.log.count .spkezInstall = 0) ∧
  s.log.count .spkezCheck ≤ 1 ∧
  s.log.count .spkezInstall ≤ 1 ∧
  (s.k8sC = none →
    s.log.count .sshKeyGet = 0 ∧ s.log.count .keyFileCreate = 0) ∧
  s.log.count .sshKeyGet ≤ 1 ∧
  s.log.count .keyFileCreate ≤ 1

theorem getSpkezA_inv (env : Env) (s : PState) (h : LogInv s) :
    LogInv ((getSpkezA env s).2) := by
  cases hc : s.spkezC with
  | some r => rw [getSpkezA_cached env s r hc]; exact h
  | none =>
    obtain ⟨h1, h2, h3, h4, h5, h6⟩ := h
    obtain ⟨hz1, hz2⟩ := h1 hc
    obtain ⟨c1, c2, c3, c4⟩ := spkezSetup_counts env
    refine ⟨?_, ?_, ?_, ?_, ?_, ?_⟩ <;>
      simp [getSpkezA, hc, List.count_append, hz1, hz2, c1, c2, c3, c4]
    · intro hk
      exact h4 hk
    · omega
    · omega

theorem getK8sA_inv (env : Env) (s : PState) (h : LogInv s) :
    LogInv ((getK8sA env s).2) := by
  cases hc : s.k8sC with
  | some r => rw [getK8sA_cached env s r hc]; exact h
  | none =>
    have hs := getSpkezA_inv env s h
    obtain ⟨h1, h2, h3, h4, h5, h6⟩ := hs
    have hk1 : ((getSpkezA env s).2).k8sC = none := by
      rw [getSpkezA_k8sC]; exact hc
    obtain ⟨hz1, hz2⟩ := h4 hk1
    obtain ⟨c1, c2, c3, c4⟩ := k8sSetup_counts env ((getSpkezA env s).1)
    refine ⟨?_, ?_, ?_, ?_, ?_, ?_⟩ <;>
      simp [getK8sA, hc, List.count_append, hz1, hz2, c1, c2, c3, c4]
    · intro hsp
      exact h1 hsp
    · omega
    · omega

theorem getCtlA_inv (env : Env) (s : PState) (h : LogInv s) :
    LogInv ((getCtlA env s).2) := by
  cases hc : s.ctlC with
  | some r => rw [getCtlA_cached env s r hc]; exact h
  | none =>
    have hs := getK8sA_inv env s h
    obtain ⟨h1, h2, h3, h4, h5, h6⟩ := hs
    refine ⟨?_, ?_, ?_, ?_, ?_, ?_⟩ <;>
      simp [getCtlA, hc]
    · intro hsp; exact h1 hsp
    · exact h2
    · exact h3
    · intro hk; exact h4 hk
    · exact h5
    · exact h6

theorem access_inv (env : Env) (g : Getter) (s : PState) (h : LogInv s) :
    LogInv ((access env g s).2) := by
  cases g
  · exact getSpkezA_inv env s h
  · exact getK8sA_inv env s h
  · exact getCtlA_inv env s h

theorem runSeq_inv (env : Env) (gs : List Getter) :
    ∀ s : PState, LogInv s → LogInv ((runSeq env gs s).2) := by
  induction gs with
  | nil => intro s h; exact h
  | cons g gs ih =>
    intro s h
    exact ih ((access env g s).2) (access_inv env g s h)

/-- C1: across any serialization of sequential or concurrent accesses to
the memoized constructors getSpkez, getK8s and getCtl, each side-effecting
setup action — the spkez availability check, the spkez install, the
SSH-key retrieval and the key-file creation — runs at most once, and any
two accesses to the same constructor observe the same cached machine value
or the same cached construction error. -/
theorem memoized_getters_once (env : Env) (gs : List Getter) :
    (((runSeq env gs initState).2).log.count .spkezCheck ≤ 1 ∧
     ((runSeq env gs initState).2).log.count .spkezInstall ≤ 1 ∧
     ((runSeq env gs initState).2).log.count .sshKeyGet ≤ 1 ∧
     ((runSeq env gs initState).2).log.count .keyFileCreate ≤ 1) ∧
    ((runSeq env gs initState).1).Pairwise
      (fun a b => a.1 = b.1 → a.2 = b.2) := by
  have hinv : LogInv ((runSeq env gs initState).2) := by
    refine runSeq_inv env gs initState ?_
    refine ⟨fun _ => ⟨rfl, rfl⟩, ?_, ?_, fun _ => ⟨rfl, rfl⟩, ?_, ?_⟩ <;>
      simp [initState]
  obtain ⟨_, h2, h3, _, h5, h6⟩ := hinv
  exact ⟨⟨h2, h3, h5, h6⟩, runSeq_pairwise env gs initState⟩

/-- The setup effects recorded after the (first) spkez install event. -/
def afterInstall (l : List Evt) : List Evt :=
  (l.dropWhile (fun e => !(e == Evt.spkezInstall))).drop 1

/-- C7 counterexample: with the initial spkez check classified not-found
and the install succeeding, getSpkez performs exactly one install and zero
post-install lookups — not the one post-install lookup the claim states. -/
theorem spkez_no_postinstall_lookup_cex :
    (spkezSetup ⟨.notFound, .ok (), .ok "KEY", .ok "/tmp/sshkey1",
        .ok (), .ok ()⟩).2.count .spkezInstall = 1 ∧
    (afterInstall (spkezSetup ⟨.notFound, .ok (), .ok "KEY", .ok "/tmp/sshkey1",
        .ok (), .ok ()⟩).2).count .spkezCheck = 0 ∧
    ¬ (afterInstall (spkezSetup ⟨.notFound, .ok (), .ok "KEY", .ok "/tmp/sshkey1",
        .ok (), .ok ()⟩).2).count .spkezCheck = 1 := by
  decide

/-- C7 amended: when the initial spkez availability check fails with a
not-found classification, the bootstrap performs exactly one install
attempt and does not look the command up again (zero post-install
lookups, never an indefinite loop); a check failure that is not not-found
causes the bootstrap to fail without attempting an install. -/
theorem spkez_bootstrap_install_no_retry (env : Env) :
    (env.spkezCheck = .notFound →
      (spkezSetup env).2.count .spkezInstall = 1 ∧
      (afterInstall (spkezSetup env).2).count .spkezCheck = 0) ∧
    (∀ e, env.spkezCheck = .failed e →
      (spkezSetup env).2.count .spkezInstall = 0 ∧
      (spkezSetup env).1 = .error ("error checking spkez: " ++ e)) := by
  constructor
  · intro h
    rcases hi : env.installRes with e | u <;>
      simp [spkezSetup, h, hi, afterInstall]
  · intro e h
    simp [spkezSetup, h]

/-- C7 amended witness: the not-found branch at a concrete environment. -/
theorem spkez_bootstrap_install_no_retry_witness :
    (spkezSetup ⟨.notFound, .ok (), .ok "K", .ok "/tmp/k", .ok (),
        .ok ()⟩).2.count .spkezInstall = 1 ∧
    (afterInstall (spkezSetup ⟨.notFound, .ok (), .ok "K", .ok "/tmp/k",
        .ok (), .ok ()⟩).2).count .spkezCheck = 0 :=
  (spkez_bootstrap_install_no_retry
    ⟨.notFound, .ok (), .ok "K", .ok "/tmp/k", .ok (), .ok ()⟩).1 rfl

end K8s
